import Mathlib

/-!
# Pipeline dependency resolution engine — shallow embedding

This file embeds the dependency-resolution core of the kukari_pipeline
repository (`src/shotgrid_manager/src/core/dependency_resolver.py`) in Lean 4
and proves the specified properties of `get_dependencies` and its helpers.

Records returned by the remote entity store are Python dictionaries in the
source; they are modelled as structures whose fields are `Option`-valued
exactly where the resolver accesses them through `dict.get` with a default.
The entity store itself (ShotGrid, an external collaborator) is modelled as a
concrete database of task, version and shot records together with the
filter/order semantics of its `find` and `find_one` operations as the
resolver uses them: `is` filters are equality (typed-reference equality on
type and id for entity references), `not_in` is membership exclusion, the
ordering directive sorts by the named field, and `find_one` returns the first
match in store order.
-/

namespace KukariPipeline

/-- A project reference dictionary, as stored in a task record. -/
structure Proj where
  id : Int
  name : String
deriving DecidableEq

/-- An entity reference dictionary (owning Asset/Shot of a task, or a linked
asset of a shot).  The resolver reads its keys defensively through
`dict.get` with defaults, so each key is `Option`-valued. -/
structure EntityRef where
  etype : Option String
  id : Option Int
  name : Option String
deriving DecidableEq

/-- A pipeline-step reference dictionary attached to a task. -/
structure StepRef where
  name : Option String
deriving DecidableEq

/-- A task record as returned by the store. -/
structure Task where
  id : Option Int
  content : String
  entity : Option EntityRef
  step : Option StepRef
  project : Option Proj
deriving DecidableEq

/-- A published-file reference attached to a version (opaque payload). -/
structure PFile where
  id : Int
  name : String
deriving DecidableEq

/-- A version record as returned by the store. -/
structure Version where
  id : Int
  code : String
  created_at : Nat
  published_files : List PFile
  sg_status_list : String
  sg_task : Int
deriving DecidableEq

/-- A shot record with its linked-asset list. -/
structure Shot where
  id : Int
  code : String
  assets : List EntityRef
deriving DecidableEq

/-- The backing database of the external entity store. -/
structure Store where
  tasks : List Task
  versions : List Version
  shots : List Shot

/-! ## Pipeline rule tables (dependency_resolver.py lines 14-42) -/

/-- `ASSET_DEPENDENCIES` : upstream steps per asset pipeline step. -/
def ASSET_DEPENDENCIES : List (String × List String) :=
  [("Art", []),
   ("Model", ["Art"]),
   ("Rig", ["Model"]),
   ("Surfacing", ["Model"]),
   ("Texture", ["Model"]),
   ("Character FX", ["Rig"]),
   ("LightRig", ["Surfacing"]),
   ("Render", ["LightRig"]),
   ("Delivery", ["Render"])]

/-- `SHOT_DEPENDENCIES` : upstream steps per shot pipeline step. -/
def SHOT_DEPENDENCIES : List (String × List String) :=
  [("Layout", []),
   ("Animation", ["Layout"]),
   ("Lighting", ["Animation"]),
   ("Character FX", ["Animation"]),
   ("FX", ["Animation"]),
   ("Render", ["Lighting"]),
   ("Comp", ["Render"])]

/-- `SHOT_ASSET_STEP_PREFERENCE` : asset steps tried in order for shot tasks. -/
def SHOT_ASSET_STEP_PREFERENCE : List String := ["Rig", "Model"]

/-- `EXCLUDED_VERSION_STATUSES` : version statuses excluded from queries. -/
def EXCLUDED_VERSION_STATUSES : List String := ["rej", "omt"]

/-! ## Task property accessors (dependency_resolver.py lines 133-183)

Each accessor mirrors the exact `dict.get` chain of the source, including
its default value. -/

/-- The step-name value present in a task record, if any
(`task.get(\x7bstep\x7d)` followed by a key lookup of the name). -/
def Task.stepCode (t : Task) : Option String := t.step.bind StepRef.name

/-- `_get_step_name` : step name with default empty string (line 135). -/
def Task.stepName (t : Task) : String := t.stepCode.getD ""

/-- Step name with default Unknown, as read in `_build_dependency_dict`
(line 479). -/
def Task.stepNameOrUnknown (t : Task) : String := t.stepCode.getD "Unknown"

/-- `_get_entity_type` : owning-entity type with default empty string
(line 146). -/
def Task.entityType (t : Task) : String := (t.entity.bind EntityRef.etype).getD ""

/-- `_get_entity_id` : owning-entity id with default -1 (line 157). -/
def Task.entityId (t : Task) : Int := (t.entity.bind EntityRef.id).getD (-1)

/-- Owning-entity display name with default Unknown, as read in
`_build_dependency_dict` (lines 480, 492). -/
def Task.entityName (t : Task) : String := (t.entity.bind EntityRef.name).getD "Unknown"

/-- `task.get(\x7bid\x7d, -1)` as used in `_build_dependency_dict` (line 458). -/
def Task.taskIdD (t : Task) : Int := t.id.getD (-1)

/-! ## Store query semantics

The store executes the filter lists the resolver passes to the managers
(`get_task`, `get_entities`, `get_entity`); each function below implements
one of the resolver's query shapes over the backing database, per the
entity-store contract (filters AND-combined, `is` equality, `not_in`
exclusion, explicit ordering directive, `find_one` = first match). -/

/-- Typed-reference equality used by an `is` filter on an entity-reference
field: references are compared by type and id. -/
def entityRefMatch (fv tv : Option EntityRef) : Bool :=
  match fv, tv with
  | some a, some b => a.etype == b.etype && a.id == b.id
  | _, _ => false

/-- `is` filter on the project field: project references compared by id. -/
def projMatch (fv tv : Option Proj) : Bool :=
  fv.map Proj.id == tv.map Proj.id

/-- `TaskManager.get_task` : find_one Task with filter id `is` task_id
(task_manager.py lines 14-18). -/
def Store.findTaskById (s : Store) (taskId : Int) : Option Task :=
  (s.tasks.filter (fun t => t.id == some taskId)).head?

/-- The upstream-task query of `_get_upstream_dependencies` (lines 305-312):
find Tasks with entity `is` the current task entity, step code `in` the
upstream step list, project `is` the current project. -/
def Store.findUpstreamTasks (s : Store) (ent : Option EntityRef)
    (steps : List String) (proj : Option Proj) : List Task :=
  s.tasks.filter (fun t =>
    entityRefMatch ent t.entity
      && (match t.stepCode with
          | some c => steps.contains c
          | none => false)
      && projMatch proj t.project)

/-- Insert a version into a list kept in descending creation-timestamp
order (insertion goes after earlier elements of equal timestamp, so the
sort below is stable). -/
def insertDescByCreated (v : Version) : List Version → List Version
  | [] => [v]
  | w :: ws =>
    if w.created_at < v.created_at then v :: w :: ws
    else w :: insertDescByCreated v ws

/-- Sort a version list by creation timestamp, newest first: the ordering
directive `created_at desc` of the version query (line 264), executed by
the store. -/
def sortDescByCreated (l : List Version) : List Version :=
  l.foldr insertDescByCreated []

/-- The version query of `_get_latest_version` (lines 255-265): find Versions
with sg_task `is` the task reference and sg_status_list `not_in` the excluded
set, ordered by created_at descending. -/
def Store.findVersionsForTask (s : Store) (taskId : Int) : List Version :=
  sortDescByCreated (s.versions.filter (fun v =>
      v.sg_task == taskId
        && !(EXCLUDED_VERSION_STATUSES.contains v.sg_status_list)))

/-- The shot query of `_get_asset_dependencies` (lines 345-348): find_one
Shot with filter id `is` shot_id. -/
def Store.findShotById (s : Store) (shotId : Int) : Option Shot :=
  (s.shots.filter (fun sh => sh.id == shotId)).head?

/-- The asset-task query of `_resolve_asset_task_with_fallback`
(lines 412-419): find_one Task with entity `is` the asset reference, step
code `is` the candidate step name, project `is` the current project. -/
def Store.findAssetTask (s : Store) (asset : EntityRef) (stepName : String)
    (proj : Option Proj) : Option Task :=
  (s.tasks.filter (fun t =>
    entityRefMatch (some asset) t.entity
      && t.stepCode == some stepName
      && projMatch proj t.project)).head?

/-! ## Resolver embedding (dependency_resolver.py lines 45-498)

Each resolver function returns its value together with the list of store
queries it performed, in order. -/

/-- A store round-trip performed by the resolver, labelled by its query. -/
inductive Query where
  | taskById (taskId : Int)
  | upstreamTasks (ent : Option EntityRef) (steps : List String) (proj : Option Proj)
  | versionsForTask (taskId : Int)
  | shotById (shotId : Int)
  | assetTask (asset : EntityRef) (stepName : String) (proj : Option Proj)
deriving DecidableEq

/-- The dependency dictionary assembled by `_build_dependency_dict`
(lines 461-469).  Keys that the source adds only conditionally
(`preferred_step`, `actual_step`, `is_fallback`) are `Option`-valued with
`none` meaning the key is absent from the dictionary. -/
structure Dep where
  source : String
  task : Task
  entity : Option EntityRef
  step : Option StepRef
  version : Option Version
  version_warning : Option String
  published_files : List PFile
  preferred_step : Option String
  actual_step : Option String
  is_fallback : Option Bool
deriving DecidableEq

/-- Python truthiness of an optional string (None and the empty string are
falsy), used by the guard on line 486. -/
def optTruthy : Option String → Bool
  | none => false
  | some str => !(str == "")

/-- The no-version warning message of `_build_dependency_dict`
(lines 481-483). -/
def noVersionWarning (t : Task) : String :=
  "No approved version available for " ++ t.stepNameOrUnknown ++ " on " ++ t.entityName

/-- The fallback warning message of `_build_dependency_dict`
(lines 493-496). -/
def fallbackWarning (actualStep : String) (t : Task) (preferredStep : String) : String :=
  "Using " ++ actualStep ++ " for " ++ t.entityName ++ " (no " ++ preferredStep ++ " available)"

/-- `_get_latest_version` (lines 242-275): query non-excluded versions of the
task ordered newest first and take the first result, or None. -/
def getLatestVersion (s : Store) (taskId : Int) : Option Version × List Query :=
  ((s.findVersionsForTask taskId).head?, [Query.versionsForTask taskId])

/-- `_build_dependency_dict` (lines 438-498). -/
def buildDependencyDict (s : Store) (source : String) (task : Task)
    (preferredStep actualStep : Option String) : Dep × List Query :=
  let vq := getLatestVersion s task.taskIdD
  let version := vq.1
  let base : Dep :=
    { source := source
      task := task
      entity := task.entity
      step := task.step
      version := version
      version_warning := none
      published_files := []
      preferred_step := none
      actual_step := none
      is_fallback := none }
  let withVersion :=
    match version with
    | some v => { base with published_files := v.published_files }
    | none => { base with version_warning := some (noVersionWarning task) }
  let final :=
    if source == "asset_dependency" && optTruthy preferredStep && optTruthy actualStep then
      let p := preferredStep.getD ""
      let a := actualStep.getD ""
      let withSteps :=
        { withVersion with
            preferred_step := some p
            actual_step := some a
            is_fallback := some (p != a) }
      if p != a then
        { withSteps with version_warning := some (fallbackWarning a task p) }
      else
        withSteps
    else
      withVersion
  (final, vq.2)

/-- Lookup in a rule table with default empty list
(`dict.get(step_name, [])`, lines 201 and 203). -/
def lookupStepsD (table : List (String × List String)) (stepName : String) : List String :=
  (table.lookup stepName).getD []

/-- `_get_upstream_step_names` (lines 189-208). -/
def getUpstreamStepNames (stepName entityType : String) : List String :=
  if entityType == "Asset" then lookupStepsD ASSET_DEPENDENCIES stepName
  else if entityType == "Shot" then lookupStepsD SHOT_DEPENDENCIES stepName
  else []

/-- `_get_upstream_dependencies` (lines 281-325). -/
def getUpstreamDependencies (s : Store) (t0 : Task) : List Dep × List Query :=
  let upstreamSteps := getUpstreamStepNames t0.stepName t0.entityType
  if upstreamSteps.isEmpty then ([], [])
  else
    let ups := s.findUpstreamTasks t0.entity upstreamSteps t0.project
    let built := ups.map (fun u => buildDependencyDict s "upstream_task" u none none)
    (built.map Prod.fst,
      Query.upstreamTasks t0.entity upstreamSteps t0.project :: (built.map Prod.snd).flatten)

/-- `_resolve_asset_task_with_fallback` (lines 394-432): try each preferred
step in order, stopping at the first step whose task query finds a task. -/
def resolveAssetTaskWithFallback (s : Store) (t0 : Task) (asset : EntityRef) :
    List String → Option Task × List Query
  | [] => (none, [])
  | stepName :: rest =>
    match s.findAssetTask asset stepName t0.project with
    | some tk => (some tk, [Query.assetTask asset stepName t0.project])
    | none =>
      let r := resolveAssetTaskWithFallback s t0 asset rest
      (r.1, Query.assetTask asset stepName t0.project :: r.2)

/-- The per-asset body of the loop in `_get_asset_dependencies`
(lines 367-391): resolve a task with fallback, then build one
asset_dependency record, or none when no task was found. -/
def assetDepOfAsset (s : Store) (t0 : Task) (asset : EntityRef) : List Dep × List Query :=
  let rq := resolveAssetTaskWithFallback s t0 asset SHOT_ASSET_STEP_PREFERENCE
  match rq.1 with
  | some assetTask =>
    let actualStep := assetTask.stepName
    let preferredStep := SHOT_ASSET_STEP_PREFERENCE.headD ""
    let dq := buildDependencyDict s "asset_dependency" assetTask
      (some preferredStep) (some actualStep)
    ([dq.1], rq.2 ++ dq.2)
  | none => ([], rq.2)

/-- `_get_asset_dependencies` (lines 331-392). -/
def getAssetDependencies (s : Store) (t0 : Task) : List Dep × List Query :=
  if !(t0.entityType == "Shot") then ([], [])
  else
    let shotId := t0.entityId
    match s.findShotById shotId with
    | none => ([], [Query.shotById shotId])
    | some shot =>
      if shot.assets.isEmpty then ([], [Query.shotById shotId])
      else
        let perAsset := shot.assets.map (assetDepOfAsset s t0)
        ((perAsset.map Prod.fst).flatten,
          Query.shotById shotId :: (perAsset.map Prod.snd).flatten)

/-- The error raised by `get_dependencies` when the task id matches no task
(line 108); the specification names this failure NotFoundError. -/
inductive DepError where
  | notFound (taskId : Int)
deriving DecidableEq

/-- The resolver's mutable per-call state: `self.task` (line 70). -/
structure ResolverState where
  task : Option Task
deriving DecidableEq

/-- `get_dependencies` (lines 81-127).  Returns the result (or the
not-found error), the resolver state after the call, and the ordered list of
store queries performed.  `self.task` is unconditionally overwritten at the
start of the call (line 105), so the incoming state is never read. -/
def getDependencies (s : Store) (_st : ResolverState) (taskId : Int) :
    Except DepError (List Dep) × ResolverState × List Query :=
  match s.findTaskById taskId with
  | none => (Except.error (DepError.notFound taskId), { task := none },
      [Query.taskById taskId])
  | some t =>
    let uq := getUpstreamDependencies s t
    let aq := if t.entityType == "Shot" then getAssetDependencies s t else ([], [])
    (Except.ok (uq.1 ++ aq.1), { task := some t },
      Query.taskById taskId :: (uq.2 ++ aq.2))

deriving instance DecidableEq for Except

/-! ## Helper lemmas about the store's version ordering -/

theorem sortDescByCreated_cons (w : Version) (ws : List Version) :
    sortDescByCreated (w :: ws) = insertDescByCreated w (sortDescByCreated ws) := rfl

theorem insertDescByCreated_ne_nil (v : Version) (l : List Version) :
    insertDescByCreated v l ≠ [] := by
  cases l with
  | nil => simp [insertDescByCreated]
  | cons w ws =>
    by_cases h : w.created_at < v.created_at <;> simp [insertDescByCreated, h]

theorem mem_insertDescByCreated {x v : Version} {l : List Version} :
    x ∈ insertDescByCreated v l ↔ x = v ∨ x ∈ l := by
  induction l with
  | nil => simp [insertDescByCreated]
  | cons w ws ih =>
    by_cases h : w.created_at < v.created_at
    · simp only [insertDescByCreated, if_pos h, List.mem_cons]
    · simp only [insertDescByCreated, if_neg h, List.mem_cons, ih]
      tauto

theorem mem_sortDescByCreated {x : Version} {l : List Version} :
    x ∈ sortDescByCreated l ↔ x ∈ l := by
  induction l with
  | nil => simp [sortDescByCreated]
  | cons w ws ih =>
    rw [sortDescByCreated_cons, mem_insertDescByCreated, ih]
    simp

theorem pairwise_insertDescByCreated {v : Version} {l : List Version}
    (h : l.Pairwise (fun a b => b.created_at ≤ a.created_at)) :
    (insertDescByCreated v l).Pairwise (fun a b => b.created_at ≤ a.created_at) := by
  induction l with
  | nil => simp [insertDescByCreated]
  | cons w ws ih =>
    rcases List.pairwise_cons.1 h with ⟨hw, hws⟩
    by_cases hlt : w.created_at < v.created_at
    · rw [show insertDescByCreated v (w :: ws) = v :: w :: ws by
        simp [insertDescByCreated, hlt]]
      refine List.pairwise_cons.2 ⟨?_, h⟩
      intro y hy
      rcases List.mem_cons.1 hy with rfl | hy2
      · exact Nat.le_of_lt hlt
      · exact Nat.le_trans (hw y hy2) (Nat.le_of_lt hlt)
    · rw [show insertDescByCreated v (w :: ws) = w :: insertDescByCreated v ws by
        simp [insertDescByCreated, hlt]]
      refine List.pairwise_cons.2 ⟨?_, ih hws⟩
      intro y hy
      rcases mem_insertDescByCreated.1 hy with rfl | hy2
      · exact Nat.le_of_not_lt hlt
      · exact hw y hy2

theorem pairwise_sortDescByCreated (l : List Version) :
    (sortDescByCreated l).Pairwise (fun a b => b.created_at ≤ a.created_at) := by
  induction l with
  | nil => simp [sortDescByCreated]
  | cons w ws ih =>
    rw [sortDescByCreated_cons]
    exact pairwise_insertDescByCreated ih

theorem head_sortDescByCreated_mem {l rest : List Version} {v : Version}
    (h : sortDescByCreated l = v :: rest) : v ∈ l :=
  mem_sortDescByCreated.1 (h ▸ List.mem_cons_self v rest)

theorem head_sortDescByCreated_max {l rest : List Version} {v : Version}
    (h : sortDescByCreated l = v :: rest) :
    ∀ w ∈ l, w.created_at ≤ v.created_at := by
  intro w hw
  have hmem : w ∈ v :: rest := by
    rw [← h]
    exact mem_sortDescByCreated.2 hw
  rcases List.mem_cons.1 hmem with rfl | hmem2
  · exact Nat.le_refl _
  · have hp := pairwise_sortDescByCreated l
    rw [h] at hp
    exact (List.pairwise_cons.1 hp).1 w hmem2

theorem sortDescByCreated_eq_nil_iff {l : List Version} :
    sortDescByCreated l = [] ↔ l = [] := by
  cases l with
  | nil => simp [sortDescByCreated]
  | cons w ws =>
    rw [sortDescByCreated_cons]
    constructor
    · intro hx
      exact absurd hx (insertDescByCreated_ne_nil _ _)
    · intro hx
      exact absurd hx (List.cons_ne_nil w ws)

/-! ## Helper lemmas about the store queries and record construction -/

theorem mem_findVersionsForTask {s : Store} {taskId : Int} {v : Version} :
    v ∈ s.findVersionsForTask taskId ↔
      v ∈ s.versions ∧ v.sg_task = taskId ∧
        v.sg_status_list ∉ EXCLUDED_VERSION_STATUSES := by
  unfold Store.findVersionsForTask
  rw [mem_sortDescByCreated, List.mem_filter]
  simp [and_assoc]

theorem buildDependencyDict_version (s : Store) (source : String) (task : Task)
    (p a : Option String) :
    (buildDependencyDict s source task p a).1.version =
      (s.findVersionsForTask task.taskIdD).head? := by
  unfold buildDependencyDict getLatestVersion
  dsimp only
  split <;> split <;> (try split) <;> rfl

theorem buildDependencyDict_source (s : Store) (source : String) (task : Task)
    (p a : Option String) :
    (buildDependencyDict s source task p a).1.source = source := by
  unfold buildDependencyDict getLatestVersion
  dsimp only
  split <;> split <;> (try split) <;> rfl

theorem buildDependencyDict_task (s : Store) (source : String) (task : Task)
    (p a : Option String) :
    (buildDependencyDict s source task p a).1.task = task := by
  unfold buildDependencyDict getLatestVersion
  dsimp only
  split <;> split <;> (try split) <;> rfl

/-- Complete characterization of the record `_build_dependency_dict`
assembles, as a function of the store contents and the arguments. -/
theorem buildDependencyDict_eq (s : Store) (source : String) (task : Task)
    (p a : Option String) :
    (buildDependencyDict s source task p a).1 =
      { source := source
        task := task
        entity := task.entity
        step := task.step
        version := (s.findVersionsForTask task.taskIdD).head?
        version_warning :=
          if (source == "asset_dependency" && optTruthy p && optTruthy a)
              && (p.getD "" != a.getD "") then
            some (fallbackWarning (a.getD "") task (p.getD ""))
          else
            match (s.findVersionsForTask task.taskIdD).head? with
            | some _ => none
            | none => some (noVersionWarning task)
        published_files :=
          match (s.findVersionsForTask task.taskIdD).head? with
          | some v => v.published_files
          | none => []
        preferred_step :=
          if source == "asset_dependency" && optTruthy p && optTruthy a then
            some (p.getD "")
          else none
        actual_step :=
          if source == "asset_dependency" && optTruthy p && optTruthy a then
            some (a.getD "")
          else none
        is_fallback :=
          if source == "asset_dependency" && optTruthy p && optTruthy a then
            some (p.getD "" != a.getD "")
          else none } := by
  unfold buildDependencyDict getLatestVersion
  dsimp only
  split <;> split <;> (try split) <;> simp_all

/-! ## A concrete fixture store

A small production database used to witness the theorems below: a shot
animation task with one upstream layout task, a shot record linking two
assets (one that only has a Model task, forcing the fallback, and one with
a Rig task), versions of mixed statuses, and some degenerate records. -/

def egProj : Proj := { id := 124, name := "SandBox" }

def shotRef : EntityRef :=
  { etype := some "Shot", id := some 1209, name := some "sq010_050" }

def orphanShotRef : EntityRef :=
  { etype := some "Shot", id := some 1300, name := some "sq999_010" }

def assetA : EntityRef :=
  { etype := some "Asset", id := some 1511, name := some "01_Cianlu" }

def assetB : EntityRef :=
  { etype := some "Asset", id := some 1480, name := some "generic_prop_1" }

def ghostAsset : EntityRef :=
  { etype := some "Asset", id := some 9999, name := some "ghost" }

def tAnim : Task :=
  { id := some 6078, content := "02_Animacion", entity := some shotRef,
    step := some { name := some "Animation" }, project := some egProj }

def tLayout : Task :=
  { id := some 6070, content := "01_Layout", entity := some shotRef,
    step := some { name := some "Layout" }, project := some egProj }

def tModelA : Task :=
  { id := some 5969, content := "002_Modeling", entity := some assetA,
    step := some { name := some "Model" }, project := some egProj }

def tRigB : Task :=
  { id := some 5970, content := "003_Rigg", entity := some assetB,
    step := some { name := some "Rig" }, project := some egProj }

def tWeird : Task :=
  { id := some 7000, content := "00_Sculpt", entity := some assetB,
    step := some { name := some "Sculpt" }, project := some egProj }

def tOrphanShot : Task :=
  { id := some 6090, content := "01_Layout", entity := some orphanShotRef,
    step := some { name := some "Layout" }, project := some egProj }

def tNoStep : Task :=
  { id := some 6095, content := "no_step_task", entity := some assetA,
    step := none, project := some egProj }

def pf1 : PFile := { id := 501, name := "layout_cache" }

def pf2 : PFile := { id := 502, name := "rig_pub" }

def v0 : Version :=
  { id := 9, code := "v000", created_at := 1, published_files := [],
    sg_status_list := "ip", sg_task := 6070 }

def v1 : Version :=
  { id := 1, code := "v001", created_at := 10, published_files := [],
    sg_status_list := "rej", sg_task := 6070 }

def v2 : Version :=
  { id := 2, code := "v002", created_at := 20, published_files := [pf1],
    sg_status_list := "apr", sg_task := 6070 }

def v3 : Version :=
  { id := 3, code := "v003", created_at := 30, published_files := [],
    sg_status_list := "omt", sg_task := 6070 }

def v4 : Version :=
  { id := 4, code := "v001", created_at := 5, published_files := [pf2],
    sg_status_list := "ip", sg_task := 5970 }

def egShot : Shot := { id := 1209, code := "sq010_050", assets := [assetA, assetB] }

def egStore : Store :=
  { tasks := [tAnim, tLayout, tModelA, tRigB, tWeird, tOrphanShot],
    versions := [v0, v1, v2, v3, v4],
    shots := [egShot] }

/-- The dependency list the resolver returns for the fixture shot animation
task. -/
def egDeps : List Dep :=
  match (getDependencies egStore { task := none } 6078).1 with
  | Except.ok l => l
  | Except.error _ => []

/-- C1: for a task id matching no Task in the store, `get_dependencies`
fails with the not-found error (the specification's NotFoundError), having
performed exactly one store query (the initial task fetch) and no further
queries, and producing no dependency records. -/
theorem getDependencies_not_found (s : Store) (st : ResolverState) (taskId : Int)
    (h : ∀ t ∈ s.tasks, t.id ≠ some taskId) :
    getDependencies s st taskId =
      (Except.error (DepError.notFound taskId), { task := none },
        [Query.taskById taskId]) := by
  have hfind : s.findTaskById taskId = none := by
    unfold Store.findTaskById
    rw [List.head?_eq_none_iff, List.filter_eq_nil_iff]
    intro t ht
    simp [h t ht]
  unfold getDependencies
  rw [hfind]

/-- C1 witness: task id 99999 matches no task of the fixture store. -/
theorem getDependencies_not_found_witness :
    getDependencies egStore { task := none } 99999 =
      (Except.error (DepError.notFound 99999), { task := none },
        [Query.taskById 99999]) :=
  getDependencies_not_found egStore { task := none } 99999 (by decide)

theorem findVersionsForTask_head_none (s : Store) (taskId : Int)
    (hall : ∀ w ∈ s.versions, w.sg_task = taskId →
      w.sg_status_list ∈ EXCLUDED_VERSION_STATUSES) :
    (s.findVersionsForTask taskId).head? = none := by
  rw [List.head?_eq_none_iff]
  unfold Store.findVersionsForTask
  rw [sortDescByCreated_eq_nil_iff, List.filter_eq_nil_iff]
  intro v hv
  intro hcontra
  rw [Bool.and_eq_true] at hcontra
  have ht : v.sg_task = taskId := by
    have h1 := hcontra.1
    simpa using h1
  have hnc : ¬ v.sg_status_list ∈ EXCLUDED_VERSION_STATUSES := by
    have h2 := hcontra.2
    simpa using h2
  exact hnc (hall v hv ht)

/-- C2: the version attached to a dependency record is the newest
non-excluded version of the dependency task: it is stored, linked to the
task, its status lies outside the excluded set, and every stored version of
that task with non-excluded status has a creation timestamp no newer than
its; a version with excluded status is never selected, and when the task
has no non-excluded version the attached version is none. -/
theorem buildDependencyDict_latest_version (s : Store) (source : String)
    (task : Task) (p a : Option String) :
    (∀ v, (buildDependencyDict s source task p a).1.version = some v →
      v ∈ s.versions ∧ v.sg_task = task.taskIdD ∧
        v.sg_status_list ∉ EXCLUDED_VERSION_STATUSES ∧
        ∀ w ∈ s.versions, w.sg_task = task.taskIdD →
          w.sg_status_list ∉ EXCLUDED_VERSION_STATUSES →
          w.created_at ≤ v.created_at) ∧
    ((∀ w ∈ s.versions, w.sg_task = task.taskIdD →
        w.sg_status_list ∈ EXCLUDED_VERSION_STATUSES) →
      (buildDependencyDict s source task p a).1.version = none) := by
  rw [buildDependencyDict_version]
  constructor
  · intro v hv
    rcases List.head?_eq_some_iff.1 hv with ⟨rest, hrest⟩
    have hmem : v ∈ s.findVersionsForTask task.taskIdD := by
      rw [hrest]
      exact List.mem_cons_self v rest
    rcases mem_findVersionsForTask.1 hmem with ⟨h1, h2, h3⟩
    refine ⟨h1, h2, h3, ?_⟩
    intro w hw htask hstat
    have hwmem : w ∈ s.findVersionsForTask task.taskIdD :=
      mem_findVersionsForTask.2 ⟨hw, htask, hstat⟩
    unfold Store.findVersionsForTask at hrest hwmem
    exact head_sortDescByCreated_max hrest w (mem_sortDescByCreated.1 hwmem)
  · intro hall
    exact findVersionsForTask_head_none s task.taskIdD hall

/-- C2 witness: for the layout task the selected version is the approved
one (older versions are dominated), and the model task with no versions
gets none. -/
theorem buildDependencyDict_latest_version_witness :
    v0.created_at ≤ v2.created_at ∧
    (buildDependencyDict egStore "asset_dependency" tModelA (some "Rig")
        (some "Model")).1.version = none := by
  constructor
  · exact ((buildDependencyDict_latest_version egStore "upstream_task" tLayout
      none none).1 v2 (by decide)).2.2.2 v0 (by decide) (by decide) (by decide)
  · exact (buildDependencyDict_latest_version egStore "asset_dependency" tModelA
      (some "Rig") (some "Model")).2 (by decide)


theorem findAssetTask_stepCode {s : Store} {asset : EntityRef} {stepName : String}
    {proj : Option Proj} {tk : Task}
    (h : s.findAssetTask asset stepName proj = some tk) :
    tk.stepCode = some stepName := by
  unfold Store.findAssetTask at h
  rcases List.head?_eq_some_iff.1 h with ⟨rest, hrest⟩
  have hmem : tk ∈ List.filter
      (fun t => entityRefMatch (some asset) t.entity
        && t.stepCode == some stepName
        && projMatch proj t.project) s.tasks := by
    rw [hrest]
    exact List.mem_cons_self _ _
  rcases List.mem_filter.1 hmem with ⟨-, hp⟩
  simp only [Bool.and_eq_true] at hp
  simpa using hp.1.2

theorem fallbackWarning_ne_noVersionWarning (aStr pStr : String) (t : Task) :
    fallbackWarning aStr t pStr ≠ noVersionWarning t := by
  intro h
  have hd := congrArg (fun str => str.data.head?) h
  simp only [fallbackWarning, noVersionWarning, String.data_append,
    List.append_assoc, List.head?_append] at hd
  have h1 : "Using ".data.head? = some ('U') := rfl
  have h2 : "No approved version available for ".data.head? = some ('N') := rfl
  rw [h1, h2] at hd
  simp [Option.or] at hd

theorem upstream_sources (s : Store) (t0 : Task) :
    ∀ d ∈ (getUpstreamDependencies s t0).1, d.source = "upstream_task" := by
  intro d hd
  simp only [getUpstreamDependencies] at hd
  split at hd
  · simp at hd
  · simp only [List.map_map, List.mem_map, Function.comp] at hd
    rcases hd with ⟨u, hu, heq⟩
    rw [← heq]
    exact buildDependencyDict_source s "upstream_task" u none none

theorem assetDepOfAsset_sources (s : Store) (t0 : Task) (asset : EntityRef) :
    ∀ d ∈ (assetDepOfAsset s t0 asset).1, d.source = "asset_dependency" := by
  intro d hd
  simp only [assetDepOfAsset] at hd
  split at hd
  · simp only [List.mem_singleton] at hd
    rw [hd]
    exact buildDependencyDict_source _ _ _ _ _
  · simp at hd

theorem asset_sources (s : Store) (t0 : Task) :
    ∀ d ∈ (getAssetDependencies s t0).1, d.source = "asset_dependency" := by
  intro d hd
  simp only [getAssetDependencies] at hd
  split at hd
  · simp at hd
  · split at hd
    · simp at hd
    · split at hd
      · simp at hd
      · simp only [List.map_map, List.mem_flatten, List.mem_map, Function.comp] at hd
        rcases hd with ⟨l, ⟨asset, hasset, heq⟩, hdl⟩
        rw [← heq] at hdl
        exact assetDepOfAsset_sources s t0 asset d hdl

theorem getAssetDependencies_shot_found (s : Store) (t0 : Task) (shot : Shot)
    (hsh : t0.entityType = "Shot") (hf : s.findShotById t0.entityId = some shot) :
    (getAssetDependencies s t0).1 =
      (shot.assets.map (fun a0 => (assetDepOfAsset s t0 a0).1)).flatten := by
  simp only [getAssetDependencies, hsh, hf]
  rw [if_neg (by decide)]
  split
  · rename_i he
    rw [List.isEmpty_iff] at he
    simp [he]
  · simp [List.map_map, Function.comp_def]


theorem assetDepOfAsset_eq_of_resolve (s : Store) (t0 : Task) (asset : EntityRef)
    (tk : Task) (qs : List Query)
    (h : resolveAssetTaskWithFallback s t0 asset SHOT_ASSET_STEP_PREFERENCE = (some tk, qs)) :
    (assetDepOfAsset s t0 asset).1 =
      [(buildDependencyDict s "asset_dependency" tk (some "Rig") (some tk.stepName)).1] := by
  simp only [assetDepOfAsset, h]
  rfl

theorem buildDependencyDict_step_fields (s : Store) (tk : Task) (aStr : String)
    (ha : aStr ≠ "") :
    (buildDependencyDict s "asset_dependency" tk (some "Rig") (some aStr)).1.preferred_step
        = some "Rig" ∧
    (buildDependencyDict s "asset_dependency" tk (some "Rig") (some aStr)).1.actual_step
        = some aStr ∧
    ((buildDependencyDict s "asset_dependency" tk (some "Rig") (some aStr)).1.is_fallback
        = some true ↔ aStr ≠ "Rig") := by
  simp [buildDependencyDict_eq, optTruthy, ha, bne_iff_ne, ne_comm]

/-- C3: for each linked asset of a shot task the resolver tries the
step-preference list in order and stops at the first step whose task query
succeeds; the resulting asset_dependency record carries the first
preference as preferred step, the matched task's step name as actual step,
and a fallback flag that is true exactly when they differ. -/
theorem resolveAssetTask_tries_in_order (s : Store) (t0 : Task) (asset : EntityRef)
    (tk : Task) (qs : List Query)
    (h : resolveAssetTaskWithFallback s t0 asset SHOT_ASSET_STEP_PREFERENCE
        = (some tk, qs)) :
    ((s.findAssetTask asset "Rig" t0.project = some tk ∧ tk.stepName = "Rig" ∧
        qs = [Query.assetTask asset "Rig" t0.project]) ∨
      (s.findAssetTask asset "Rig" t0.project = none ∧
        s.findAssetTask asset "Model" t0.project = some tk ∧ tk.stepName = "Model" ∧
        qs = [Query.assetTask asset "Rig" t0.project,
          Query.assetTask asset "Model" t0.project])) ∧
    ∃ d, (assetDepOfAsset s t0 asset).1 = [d] ∧
      d.preferred_step = some "Rig" ∧
      d.actual_step = some tk.stepName ∧
      (d.is_fallback = some true ↔ tk.stepName ≠ "Rig") := by
  have hd := assetDepOfAsset_eq_of_resolve s t0 asset tk qs h
  have hpre : SHOT_ASSET_STEP_PREFERENCE = ["Rig", "Model"] := rfl
  rw [hpre] at h
  cases hR : s.findAssetTask asset "Rig" t0.project with
  | some tk1 =>
      simp only [resolveAssetTaskWithFallback, hR, Prod.mk.injEq,
        Option.some.injEq] at h
      obtain ⟨rfl, rfl⟩ := h
      have hstep : tk1.stepName = "Rig" := by
        simp [Task.stepName, findAssetTask_stepCode hR]
      obtain ⟨f1, f2, f3⟩ := buildDependencyDict_step_fields s tk1 tk1.stepName
        (by rw [hstep]; decide)
      exact ⟨Or.inl ⟨rfl, hstep, rfl⟩, ⟨_, hd, f1, f2, f3⟩⟩
  | none =>
      simp only [resolveAssetTaskWithFallback, hR] at h
      cases hM : s.findAssetTask asset "Model" t0.project with
      | some tk2 =>
          simp only [hM, Prod.mk.injEq, Option.some.injEq] at h
          obtain ⟨rfl, rfl⟩ := h
          have hstep : tk2.stepName = "Model" := by
            simp [Task.stepName, findAssetTask_stepCode hM]
          obtain ⟨f1, f2, f3⟩ := buildDependencyDict_step_fields s tk2 tk2.stepName
            (by rw [hstep]; decide)
          exact ⟨Or.inr ⟨rfl, rfl, hstep, rfl⟩, ⟨_, hd, f1, f2, f3⟩⟩
      | none =>
          simp only [hM, Prod.mk.injEq] at h
          exact absurd h.1 (by simp)

/-- C3 witness: the fixture asset with only a Model task falls back from
Rig to Model. -/
theorem resolveAssetTask_tries_in_order_witness :
    egStore.findAssetTask assetA "Rig" tAnim.project = none ∧
    egStore.findAssetTask assetA "Model" tAnim.project = some tModelA ∧
    ∃ d, (assetDepOfAsset egStore tAnim assetA).1 = [d] ∧
      d.preferred_step = some "Rig" ∧
      d.actual_step = some tModelA.stepName ∧
      (d.is_fallback = some true ↔ tModelA.stepName ≠ "Rig") :=
  ⟨by decide, by decide,
    (resolveAssetTask_tries_in_order egStore tAnim assetA tModelA
      [Query.assetTask assetA "Rig" tAnim.project,
        Query.assetTask assetA "Model" tAnim.project] (by decide)).2⟩

/-- C4: whenever an asset_dependency record's fallback flag is true, its
warning is exactly the fallback message (built from the preferred and
actual steps), overwriting any no-version warning: the record never
carries the no-version message, even when no version exists. -/
theorem fallback_overwrites_warning (s : Store) (task : Task) (p a : Option String)
    (h : (buildDependencyDict s "asset_dependency" task p a).1.is_fallback
        = some true) :
    (buildDependencyDict s "asset_dependency" task p a).1.version_warning =
      some (fallbackWarning (a.getD "") task (p.getD "")) ∧
    (buildDependencyDict s "asset_dependency" task p a).1.version_warning ≠
      some (noVersionWarning task) := by
  rw [buildDependencyDict_eq] at h ⊢
  dsimp only at h ⊢
  by_cases hg : ("asset_dependency" == "asset_dependency"
      && optTruthy p && optTruthy a) = true
  · rw [if_pos hg] at h
    have hne : (p.getD "" != a.getD "") = true := by simpa using h
    rw [if_pos (by rw [hg, hne]; rfl)]
    refine ⟨rfl, ?_⟩
    simp only [ne_eq, Option.some.injEq]
    exact fallbackWarning_ne_noVersionWarning _ _ _
  · rw [if_neg hg] at h
    cases h

/-- C4 witness: the fixture Model-for-Rig fallback record, whose task also
has no version, carries the fallback message and not the no-version one. -/
theorem fallback_overwrites_warning_witness :
    (buildDependencyDict egStore "asset_dependency" tModelA (some "Rig")
        (some "Model")).1.version_warning =
      some (fallbackWarning "Model" tModelA "Rig") ∧
    (buildDependencyDict egStore "asset_dependency" tModelA (some "Rig")
        (some "Model")).1.version_warning ≠
      some (noVersionWarning tModelA) :=
  fallback_overwrites_warning egStore tModelA (some "Rig") (some "Model") (by decide)

/-- C10: when the matched asset task's step name is empty or missing, the
asset_dependency record assembled for it omits the preferred_step,
actual_step and is_fallback keys entirely (the fallback-tracking branch
requires both step strings non-empty), and every upstream_task record
likewise lacks all three keys. -/
theorem fallback_keys_require_step (s : Store) (t0 : Task) (atk : Task)
    (h : atk.stepName = "") :
    ((buildDependencyDict s "asset_dependency" atk
        (some (SHOT_ASSET_STEP_PREFERENCE.headD ""))
        (some atk.stepName)).1.preferred_step = none ∧
      (buildDependencyDict s "asset_dependency" atk
        (some (SHOT_ASSET_STEP_PREFERENCE.headD ""))
        (some atk.stepName)).1.actual_step = none ∧
      (buildDependencyDict s "asset_dependency" atk
        (some (SHOT_ASSET_STEP_PREFERENCE.headD ""))
        (some atk.stepName)).1.is_fallback = none) ∧
    ∀ d ∈ (getUpstreamDependencies s t0).1,
      d.preferred_step = none ∧ d.actual_step = none ∧ d.is_fallback = none := by
  constructor
  · simp [buildDependencyDict_eq, optTruthy, h]
  · intro d hd
    simp only [getUpstreamDependencies] at hd
    split at hd
    · simp at hd
    · simp only [List.map_map, List.mem_map, Function.comp] at hd
      rcases hd with ⟨u, hu, heq⟩
      rw [← heq]
      simp [buildDependencyDict_eq]

/-- C10 witness: a task record with no step dictionary yields a record
without the three fallback keys, and the fixture upstream layout record
lacks them too. -/
theorem fallback_keys_require_step_witness :
    ((buildDependencyDict egStore "asset_dependency" tNoStep
        (some (SHOT_ASSET_STEP_PREFERENCE.headD ""))
        (some tNoStep.stepName)).1.preferred_step = none ∧
      (buildDependencyDict egStore "asset_dependency" tNoStep
        (some (SHOT_ASSET_STEP_PREFERENCE.headD ""))
        (some tNoStep.stepName)).1.actual_step = none ∧
      (buildDependencyDict egStore "asset_dependency" tNoStep
        (some (SHOT_ASSET_STEP_PREFERENCE.headD ""))
        (some tNoStep.stepName)).1.is_fallback = none) ∧
    ((buildDependencyDict egStore "upstream_task" tLayout none none).1.preferred_step
        = none ∧
      (buildDependencyDict egStore "upstream_task" tLayout none none).1.actual_step
        = none ∧
      (buildDependencyDict egStore "upstream_task" tLayout none none).1.is_fallback
        = none) := by
  have h := fallback_keys_require_step egStore tAnim tNoStep (by decide)
  exact ⟨h.1, h.2 (buildDependencyDict egStore "upstream_task" tLayout none none).1
    (by decide)⟩


/-- C5: for an existing task the result sequence is all upstream_task
records first, then asset_dependency records (in the order of the shot's
linked-asset list) only when the owning entity is a Shot; a task owned by
an Asset yields no asset_dependency record. -/
theorem getDependencies_ordering (s : Store) (st : ResolverState) (taskId : Int)
    (t : Task) (h : s.findTaskById taskId = some t) :
    ∃ us as, (getDependencies s st taskId).1 = Except.ok (us ++ as) ∧
      (∀ d ∈ us, d.source = "upstream_task") ∧
      (∀ d ∈ as, d.source = "asset_dependency") ∧
      (∀ shot, t.entityType = "Shot" → s.findShotById t.entityId = some shot →
        as = (shot.assets.map (fun a0 => (assetDepOfAsset s t a0).1)).flatten) ∧
      (t.entityType ≠ "Shot" → as = []) ∧
      (t.entityType = "Asset" → ∀ d ∈ us ++ as, d.source ≠ "asset_dependency") := by
  by_cases hsh : t.entityType = "Shot"
  · refine ⟨(getUpstreamDependencies s t).1, (getAssetDependencies s t).1,
      ?_, upstream_sources s t, asset_sources s t, ?_, ?_, ?_⟩
    · unfold getDependencies
      rw [h]
      simp [hsh]
    · intro shot _ hf
      exact getAssetDependencies_shot_found s t shot hsh hf
    · intro hc
      exact absurd hsh hc
    · intro hA
      rw [hA] at hsh
      exact absurd hsh (by decide)
  · refine ⟨(getUpstreamDependencies s t).1, [],
      ?_, upstream_sources s t, ?_, ?_, ?_, ?_⟩
    · unfold getDependencies
      rw [h]
      simp [hsh]
    · intro d hd
      cases hd
    · intro shot hc
      exact absurd hc hsh
    · intro _
      rfl
    · intro hA d hd
      rw [List.append_nil] at hd
      rw [upstream_sources s t d hd]
      decide

/-- C5 witness: the fixture run returns the upstream layout record followed
by the two asset records in linked-asset order. -/
theorem getDependencies_ordering_witness :
    ∃ us as, (getDependencies egStore { task := none } 6078).1 = Except.ok (us ++ as) ∧
      (∀ d ∈ us, d.source = "upstream_task") ∧
      (∀ d ∈ as, d.source = "asset_dependency") ∧
      (∀ shot, tAnim.entityType = "Shot" →
        egStore.findShotById tAnim.entityId = some shot →
        as = (shot.assets.map (fun a0 => (assetDepOfAsset egStore tAnim a0).1)).flatten) ∧
      (tAnim.entityType ≠ "Shot" → as = []) ∧
      (tAnim.entityType = "Asset" → ∀ d ∈ us ++ as, d.source ≠ "asset_dependency") :=
  getDependencies_ordering egStore { task := none } 6078 tAnim (by decide)

/-- C6: an existing task whose step name is empty, or not a key of the rule
table for its entity category, or whose entity category is neither Asset
nor Shot, yields zero upstream_task records and no exception. -/
theorem getDependencies_pipeline_root (s : Store) (st : ResolverState) (taskId : Int)
    (t : Task) (h : s.findTaskById taskId = some t)
    (hcond : t.stepName = "" ∨
      (t.entityType = "Asset" ∧ ASSET_DEPENDENCIES.lookup t.stepName = none) ∨
      (t.entityType = "Shot" ∧ SHOT_DEPENDENCIES.lookup t.stepName = none) ∨
      (t.entityType ≠ "Asset" ∧ t.entityType ≠ "Shot")) :
    ∃ deps, (getDependencies s st taskId).1 = Except.ok deps ∧
      ∀ d ∈ deps, d.source ≠ "upstream_task" := by
  have hA0 : ASSET_DEPENDENCIES.lookup "" = none := by decide
  have hS0 : SHOT_DEPENDENCIES.lookup "" = none := by decide
  have hsteps : getUpstreamStepNames t.stepName t.entityType = [] := by
    unfold getUpstreamStepNames lookupStepsD
    rcases hcond with hc | ⟨hA, hl⟩ | ⟨hS, hl⟩ | ⟨hA, hS⟩
    · rw [hc]
      split
      · rw [hA0]
        rfl
      · split
        · rw [hS0]
          rfl
        · rfl
    · simp [hA, hl]
    · simp [hS, hl]
    · rw [if_neg (by simp [hA]), if_neg (by simp [hS])]
  have hup : (getUpstreamDependencies s t).1 = [] := by
    simp [getUpstreamDependencies, hsteps]
  refine ⟨(getUpstreamDependencies s t).1 ++
      (if t.entityType == "Shot" then getAssetDependencies s t else ([], [])).1,
    ?_, ?_⟩
  · unfold getDependencies
    rw [h]
  · intro d hd
    rcases List.mem_append.1 hd with h1 | h2
    · rw [hup] at h1
      cases h1
    · by_cases hsh : t.entityType == "Shot"
      · rw [if_pos hsh] at h2
        rw [asset_sources s t d h2]
        decide
      · rw [if_neg hsh] at h2
        cases h2

/-- C6 witness: the fixture task with the unknown step Sculpt yields no
upstream records and no error. -/
theorem getDependencies_pipeline_root_witness :
    ∃ deps, (getDependencies egStore { task := none } 7000).1 = Except.ok deps ∧
      ∀ d ∈ deps, d.source ≠ "upstream_task" :=
  getDependencies_pipeline_root egStore { task := none } 7000 tWeird (by decide)
    (Or.inr (Or.inl ⟨by decide, by decide⟩))


/-- C7 counterexample: in the fixture run, the fallback asset record's task
has no non-excluded version, yet its version_warning is not the no-version
message (the fallback message overwrote it), refuting the claim as
stated. -/
theorem no_version_message_claim_refuted :
    (getDependencies egStore { task := none } 6078).1 = Except.ok egDeps ∧
    ∃ d ∈ egDeps, d.version = none ∧ d.published_files = [] ∧
      (∀ w ∈ egStore.versions, w.sg_task = d.task.taskIdD →
        w.sg_status_list ∈ EXCLUDED_VERSION_STATUSES) ∧
      d.version_warning ≠ some (noVersionWarning d.task) := by
  decide

/-- C7 (amended): a dependency record whose task has no non-excluded
version has version none, empty published_files, and a non-empty warning,
which is the no-version message naming step and entity except when the
fallback flag is true (the fallback message has then overwritten it);
conversely when a latest version exists the record carries that version's
published files and the no-version message is never set. -/
theorem no_version_record_shape (s : Store) (source : String) (task : Task)
    (p a : Option String) :
    ((∀ w ∈ s.versions, w.sg_task = task.taskIdD →
        w.sg_status_list ∈ EXCLUDED_VERSION_STATUSES) →
      (buildDependencyDict s source task p a).1.version = none ∧
      (buildDependencyDict s source task p a).1.published_files = [] ∧
      (buildDependencyDict s source task p a).1.version_warning ≠ none ∧
      ((buildDependencyDict s source task p a).1.is_fallback ≠ some true →
        (buildDependencyDict s source task p a).1.version_warning =
          some (noVersionWarning task))) ∧
    ∀ v, (buildDependencyDict s source task p a).1.version = some v →
      (buildDependencyDict s source task p a).1.published_files = v.published_files ∧
      (buildDependencyDict s source task p a).1.version_warning ≠
        some (noVersionWarning task) := by
  constructor
  · intro hall
    have hv : (s.findVersionsForTask task.taskIdD).head? = none :=
      findVersionsForTask_head_none s task.taskIdD hall
    refine ⟨?_, ?_, ?_, ?_⟩
    · rw [buildDependencyDict_version, hv]
    · simp [buildDependencyDict_eq, hv]
    · rw [buildDependencyDict_eq]
      dsimp only
      split
      · simp
      · rw [hv]
        simp
    · intro hnf
      rw [buildDependencyDict_eq] at hnf ⊢
      dsimp only at hnf ⊢
      by_cases hgw : ((source == "asset_dependency" && optTruthy p && optTruthy a)
          && (p.getD "" != a.getD "")) = true
      · exfalso
        apply hnf
        rw [Bool.and_eq_true] at hgw
        rw [if_pos hgw.1, hgw.2]
      · rw [if_neg hgw, hv]
  · intro v hsome
    have hv2 : (s.findVersionsForTask task.taskIdD).head? = some v := by
      rwa [buildDependencyDict_version] at hsome
    constructor
    · simp [buildDependencyDict_eq, hv2]
    · rw [buildDependencyDict_eq]
      dsimp only
      by_cases hgw : ((source == "asset_dependency" && optTruthy p && optTruthy a)
          && (p.getD "" != a.getD "")) = true
      · rw [if_pos hgw]
        simp only [ne_eq, Option.some.injEq]
        exact fallbackWarning_ne_noVersionWarning _ _ _
      · rw [if_neg hgw, hv2]
        simp

/-- C7 amended witness: the version-less model task gets the no-version
message (no fallback in play), and the layout task with an approved
version gets its published files and no no-version message. -/
theorem no_version_record_shape_witness :
    (buildDependencyDict egStore "upstream_task" tModelA none none).1.version = none ∧
    (buildDependencyDict egStore "upstream_task" tModelA none none).1.published_files
      = [] ∧
    (buildDependencyDict egStore "upstream_task" tModelA none none).1.version_warning
      = some (noVersionWarning tModelA) ∧
    (buildDependencyDict egStore "upstream_task" tLayout none none).1.published_files
      = v2.published_files ∧
    (buildDependencyDict egStore "upstream_task" tLayout none none).1.version_warning
      ≠ some (noVersionWarning tLayout) := by
  have h1 := (no_version_record_shape egStore "upstream_task" tModelA none none).1
    (by decide)
  have h2 := (no_version_record_shape egStore "upstream_task" tLayout none none).2
    v2 (by decide)
  exact ⟨h1.1, h1.2.1, h1.2.2.2 (by decide), h2.1, h2.2⟩

/-- C8: partial resolution failures never abort the call: an asset whose
fallback resolution finds no task contributes no record while the other
assets are still processed (the asset branch is the concatenation over the
whole linked-asset list), an unretrievable shot yields zero asset records,
and a found task always produces an ok result, never an exception. -/
theorem partial_failures_recovered (s : Store) (t0 : Task) :
    (∀ asset, (resolveAssetTaskWithFallback s t0 asset SHOT_ASSET_STEP_PREFERENCE).1
        = none → (assetDepOfAsset s t0 asset).1 = []) ∧
    (s.findShotById t0.entityId = none → (getAssetDependencies s t0).1 = []) ∧
    (∀ shot, t0.entityType = "Shot" → s.findShotById t0.entityId = some shot →
      (getAssetDependencies s t0).1 =
        (shot.assets.map (fun a0 => (assetDepOfAsset s t0 a0).1)).flatten) ∧
    (∀ st taskId t, s.findTaskById taskId = some t →
      ∃ deps, (getDependencies s st taskId).1 = Except.ok deps) := by
  refine ⟨?_, ?_, ?_, ?_⟩
  · intro asset hr
    simp only [assetDepOfAsset, hr]
  · intro hf
    simp only [getAssetDependencies]
    split
    · rfl
    · rw [hf]
  · intro shot hsh hf
    exact getAssetDependencies_shot_found s t0 shot hsh hf
  · intro st taskId t hf
    unfold getDependencies
    rw [hf]
    exact ⟨_, rfl⟩

/-- C8 witness: an asset with no tasks contributes nothing, a task whose
shot record is missing yields zero asset records, the fixture shot's asset
branch is the concatenation over its linked assets, and the fixture run
returns ok. -/
theorem partial_failures_recovered_witness :
    (assetDepOfAsset egStore tAnim ghostAsset).1 = [] ∧
    (getAssetDependencies egStore tOrphanShot).1 = [] ∧
    (getAssetDependencies egStore tAnim).1 =
      (egShot.assets.map (fun a0 => (assetDepOfAsset egStore tAnim a0).1)).flatten ∧
    ∃ deps, (getDependencies egStore { task := none } 6078).1 = Except.ok deps := by
  have h := partial_failures_recovered egStore tAnim
  have h2 := partial_failures_recovered egStore tOrphanShot
  exact ⟨h.1 ghostAsset (by decide), h2.2.1 (by decide),
    h.2.2.1 egShot (by decide) (by decide),
    h.2.2.2 { task := none } 6078 tAnim (by decide)⟩

/-- C9: `get_dependencies` is deterministic given the same backing data: a
call is insensitive to the resolver's incoming per-call state (which the
call overwrites before use), so a second call with the state left by the
first returns the same result. -/
theorem getDependencies_deterministic (s : Store) (st1 st2 : ResolverState)
    (taskId : Int) :
    getDependencies s st1 taskId = getDependencies s st2 taskId ∧
    (getDependencies s ((getDependencies s st1 taskId).2.1) taskId).1 =
      (getDependencies s st1 taskId).1 :=
  ⟨rfl, rfl⟩

end KukariPipeline
